import Mathlib

/-!
Shallow embedding of `src/main.py` of the pet-photo-transformer backend.

The service has three routes (`GET /`, `GET /prompts`, `POST /generate-image`),
two lazily initialized global clients (`supabase`, `generation_model`), a prompt
catalog `PROMPTS` loaded from JSON, and a startup hook `startup_event` that
reads the environment and constructs the clients, swallowing every exception.

The embedding keeps the Python structure:
  * external effects (the Vertex AI `edit_image` call, the Supabase `upload`
    call, `get_public_url`, `os.urandom(4).hex()`) are parameters collected in
    a `Backend` record; fallible calls return `Except String _` where the
    `String` is the exception message interpolated into the HTTP detail;
  * the handler returns its HTTP response together with the list of outbound
    calls it performed, so "no upstream call" claims are statements about the
    trace;
  * Python truthiness (`if not prompt`, `if not bucket_name_supabase`,
    `all([...])` over `os.getenv` results) is modelled exactly: `None` and the
    empty string are falsy, every other string is truthy.
-/

namespace PetPhoto

/-- One record of `prompts.json`: `{id, title, promptText}` (`main.py` line 68,
used at lines 76 and 85). -/
structure PromptEntry where
  id : Int
  title : String
  promptText : String
deriving DecidableEq, Repr

/-- Minimal JSON value type for response bodies that the claims inspect. -/
inductive JVal where
  | int (i : Int)
  | str (s : String)
deriving DecidableEq, Repr

/-- A JSON object, as an ordered field list (Python dicts preserve insertion
order). -/
def JObj := List (String × JVal)

/-- The `ImageGenerationModel` handle produced by
`ImageGenerationModel.from_pretrained(IMAGEN_MODEL_NAME)` (`main.py` line 49);
only its identity matters to the control flow. -/
structure GenModelC where
  modelName : String
deriving DecidableEq, Repr

/-- The Supabase client handle produced by
`create_client(SUPABASE_URL, SUPABASE_KEY)` (`main.py` line 45). -/
structure SupabaseC where
  url : String
  key : String
deriving DecidableEq, Repr

/-- The two module-level globals of `main.py` lines 13–14, both starting as
`None` and assigned only inside `startup_event`. -/
structure Clients where
  supabase : Option SupabaseC
  generation_model : Option GenModelC
deriving DecidableEq, Repr

/-- Python truthiness of an `os.getenv` result: `None` and `""` are falsy. -/
def truthyOpt : Option String → Bool
  | none => false
  | some s => !(s == "")

/-- An outbound call to one of the two external backends. `edit_image` records
the arguments of `generation_model.edit_image(...)` (`main.py` lines 95–99);
`upload` records the arguments of
`supabase.storage.from_(bucket).upload(file, path, file_options)` (`main.py`
lines 119–123). `get_public_url` is URL synthesis by the storage client (no
separate trace event; its result appears in the response). -/
inductive Call where
  | edit_image (base_image : List Nat) (prompt : String) (number_of_images : Nat)
  | upload (bucket : String) (file : List Nat) (path : String) (contentType : String)
deriving DecidableEq, Repr

/-- Outcomes of the external calls and the random source, fixed per request.
`edit_image` covers the whole `try` body of `main.py` lines 95–103 (the remote
call plus the `response.images[0]._image_bytes` extraction): `.ok` carries the
transformed bytes, `.error` the exception text. `upload` is the Supabase upload
call of lines 119–123. `get_public_url` is the Supabase client's URL synthesis
of line 125 (pure string construction). `urandom_hex` is the value of
`os.urandom(4).hex()` on line 112. -/
structure Backend where
  edit_image : List Nat → String → Except String (List Nat)
  upload : String → List Nat → String → String → Except String Unit
  get_public_url : String → String → String
  urandom_hex : String

/-- An HTTP response of the handler: either the 200 body
`{"image_url": image_url}` (`main.py` line 131) or a raised
`HTTPException(status_code, detail)`. -/
inductive Resp where
  | ok (image_url : String)
  | httpError (status_code : Nat) (detail : String)
deriving DecidableEq, Repr

/-- Status code of a response (200 for the success body). -/
def Resp.status : Resp → Nat
  | .ok _ => 200
  | .httpError s _ => s

/-- The detail string of the 503 response (`main.py` line 82). -/
def detail503 : String :=
  "Service not ready. AI or Database client failed to initialize. Check server logs."

/-- The `ValueError` message raised when `BUCKET` is unset (`main.py` line 117). -/
def bucketMissingMsg : String :=
  "SUPABASE BUCKET environment variable (BUCKET) is not set."

/-- The filename synthesized on `main.py` line 112:
`f"generated_{prompt_id}_{os.urandom(4).hex()}.png"`. -/
def synthesized_filename (prompt_id : Int) (suffix : String) : String :=
  "generated_" ++ toString prompt_id ++ "_" ++ suffix ++ ".png"

/-- Handler of `GET /prompts` (`main.py` lines 74–76):
`[{"id": p["id"], "title": p["title"]} for p in PROMPTS]`. -/
def get_prompts (PROMPTS : List PromptEntry) : List JObj :=
  PROMPTS.map (fun p => [("id", JVal.int p.id), ("title", JVal.str p.title)])

/-- Handler of `POST /generate-image` (`main.py` lines 78–131). Arguments: the loaded
catalog, the global clients, the value of `os.getenv("BUCKET")` read on
line 115, the external-call outcomes, the `prompt_id` query parameter and the
bytes of the uploaded file. Returns the response together with the trace of
outbound backend calls, in order. -/
def generate_image (PROMPTS : List PromptEntry) (clients : Clients)
    (bucketEnv : Option String) (b : Backend)
    (prompt_id : Int) (fileBytes : List Nat) : Resp × List Call :=
  -- line 81: `if not generation_model or not supabase:` (objects are truthy,
  -- `None` is falsy)
  if clients.generation_model.isNone || clients.supabase.isNone then
    (.httpError 503 detail503, [])
  else
    -- line 85: `next((p["promptText"] for p in PROMPTS if p["id"] == prompt_id), None)`
    match (PROMPTS.find? (fun p => p.id == prompt_id)).map (fun p => p.promptText) with
    | none => (.httpError 404 "Prompt not found", [])
    | some prompt =>
      -- line 86: `if not prompt:` — also fires on an empty prompt string
      if prompt == "" then
        (.httpError 404 "Prompt not found", [])
      else
        -- lines 90–91: read the upload into `image_bytes`
        let image_bytes := fileBytes
        -- lines 94–105: the edit call; on any exception, 500
        match b.edit_image image_bytes prompt with
        | .error e =>
          (.httpError 500 ("Image generation failed: " ++ e),
           [.edit_image image_bytes prompt 1])
        | .ok new_image_data_raw =>
          let new_image_bytes := new_image_data_raw
          -- line 112: the per-request filename
          let filename := synthesized_filename prompt_id b.urandom_hex
          -- lines 115–117: `if not bucket_name_supabase: raise ValueError(...)`,
          -- caught by the same `except` as the upload (line 127)
          match bucketEnv with
          | none =>
            (.httpError 500 ("File upload to Supabase failed: " ++ bucketMissingMsg),
             [.edit_image image_bytes prompt 1])
          | some bucket_name_supabase =>
            if bucket_name_supabase == "" then
              (.httpError 500 ("File upload to Supabase failed: " ++ bucketMissingMsg),
               [.edit_image image_bytes prompt 1])
            else
              -- lines 119–123: the upload call
              match b.upload bucket_name_supabase new_image_bytes filename "image/png" with
              | .error e =>
                (.httpError 500 ("File upload to Supabase failed: " ++ e),
                 [.edit_image image_bytes prompt 1,
                  .upload bucket_name_supabase new_image_bytes filename "image/png"])
              | .ok _ =>
                -- lines 125, 131: synthesize the public URL and return it
                (.ok (b.get_public_url bucket_name_supabase filename),
                 [.edit_image image_bytes prompt 1,
                  .upload bucket_name_supabase new_image_bytes filename "image/png"])

/-- The environment variables read inside `startup_event` (`main.py`
lines 22–28), each as the `os.getenv` result. -/
structure StartEnv where
  GOOGLE_PROJECT_ID : Option String
  GOOGLE_LOCATION : Option String
  SUPABASE_URL : Option String
  SUPABASE_SERVICE_KEY : Option String
  IMAGEN_MODEL_NAME : Option String
deriving DecidableEq, Repr

/-- Outcomes of the three constructor calls inside the startup `try` block
(`main.py` lines 44–49): `vertexai.init(project, location)`,
`create_client(url, key)`, `ImageGenerationModel.from_pretrained(name)`. Each
may raise, carrying an exception message. -/
structure InitBackend where
  vertexai_init : String → String → Except String Unit
  create_client : String → String → Except String SupabaseC
  from_pretrained : String → Except String GenModelC

/-- The `try` block of `startup_event` (`main.py` lines 42–51), as explicit
state passing: the globals are assigned one at a time, so an exception from a
later constructor leaves the earlier assignment in place. Returns the global
client state together with the exception that escaped the block, if any. -/
def startup_try (pid loc url key model : String) (b : InitBackend) :
    Clients × Option String :=
  match b.vertexai_init pid loc with
  | .error e => (⟨none, none⟩, some e)
  | .ok _ =>
    match b.create_client url key with
    | .error e => (⟨none, none⟩, some e)
    | .ok sc =>
      -- line 45 has already run: the global `supabase` is now set
      match b.from_pretrained model with
      | .error e => (⟨some sc, none⟩, some e)
      | .ok gm => (⟨some sc, some gm⟩, none)

/-- The startup hook `startup_event` (`main.py` lines 17–56). Returns the final global client
state and the exception escaping the hook, if any. The `if not all([...])`
check of line 32 returns early (both clients stay `None`); the
`except Exception` of line 52 prints and swallows, so no exception escapes. -/
def startup_event (env : StartEnv) (b : InitBackend) : Clients × Option String :=
  if !(truthyOpt env.GOOGLE_PROJECT_ID && truthyOpt env.GOOGLE_LOCATION &&
       truthyOpt env.SUPABASE_URL && truthyOpt env.SUPABASE_SERVICE_KEY &&
       truthyOpt env.IMAGEN_MODEL_NAME) then
    (⟨none, none⟩, none)
  else
    let st :=
      startup_try (env.GOOGLE_PROJECT_ID.getD "") (env.GOOGLE_LOCATION.getD "")
        (env.SUPABASE_URL.getD "") (env.SUPABASE_SERVICE_KEY.getD "")
        (env.IMAGEN_MODEL_NAME.getD "") b
    match st.2 with
    | some _ => (st.1, none)
    | none => (st.1, none)

/-! Concrete instances used by witnesses and counterexamples. -/

/-- A small concrete catalog: a normal entry and one whose `promptText` is
empty. -/
def demoPrompts : List PromptEntry :=
  [⟨1, "Astronaut Pet", "Make the pet an astronaut"⟩, ⟨2, "Blank", ""⟩]

/-- Fully initialized global clients. -/
def demoClients : Clients := ⟨some ⟨"https://supa.example", "svc-key"⟩, some ⟨"imagen-3"⟩⟩

/-- External calls that all succeed. -/
def demoBackend : Backend where
  edit_image := fun _ _ => .ok [7, 7, 7]
  upload := fun _ _ _ _ => .ok ()
  get_public_url := fun bucket path => "https://cdn.example/" ++ bucket ++ "/" ++ path
  urandom_hex := "0a1b2c3d"

/-- External calls where the Vertex AI edit call raises. -/
def demoEditFails : Backend where
  edit_image := fun _ _ => .error "quota exceeded"
  upload := fun _ _ _ _ => .ok ()
  get_public_url := fun bucket path => bucket ++ "/" ++ path
  urandom_hex := "0a1b2c3d"

/-- External calls where the Supabase upload raises. -/
def demoUploadFails : Backend where
  edit_image := fun _ _ => .ok [7, 7, 7]
  upload := fun _ _ _ _ => .error "storage quota"
  get_public_url := fun bucket path => bucket ++ "/" ++ path
  urandom_hex := "0a1b2c3d"

/-- An environment with the four other variables set but `IMAGEN_MODEL_NAME`
unset. -/
def envNoModel : StartEnv :=
  ⟨some "proj", some "us-central1", some "https://supa.example", some "svc-key", none⟩

/-- An environment with all five startup variables set. -/
def envAll : StartEnv :=
  ⟨some "proj", some "us-central1", some "https://supa.example", some "svc-key",
   some "imagen-3"⟩

/-- Constructor calls that all succeed. -/
def demoInit : InitBackend where
  vertexai_init := fun _ _ => .ok ()
  create_client := fun u k => .ok ⟨u, k⟩
  from_pretrained := fun n => .ok ⟨n⟩

/-- Constructor calls where only `ImageGenerationModel.from_pretrained` raises,
after `create_client` has already assigned the `supabase` global. -/
def initModelFails : InitBackend where
  vertexai_init := fun _ _ => .ok ()
  create_client := fun u k => .ok ⟨u, k⟩
  from_pretrained := fun _ => .error "model not found"

/-! Helper lemmas shared by several claims. -/

/-- Helper: with either client still `None`, the handler answers 503 with an
empty call trace. -/
theorem aux_uninitialized_503 (PROMPTS : List PromptEntry) (clients : Clients)
    (bucketEnv : Option String) (b : Backend) (prompt_id : Int) (fileBytes : List Nat)
    (h : clients.generation_model = none ∨ clients.supabase = none) :
    generate_image PROMPTS clients bucketEnv b prompt_id fileBytes =
      (.httpError 503 detail503, []) := by
  rcases h with h | h <;> simp [generate_image, h]

/-! Theorems for the claims. -/

/-- C3: while the generation-model client or the storage client is `None`, the
handler returns HTTP 503 and performs no backend call (empty trace); it returns
rather than crashing. -/
theorem generate_image_uninitialized (PROMPTS : List PromptEntry) (clients : Clients)
    (bucketEnv : Option String) (b : Backend) (prompt_id : Int) (fileBytes : List Nat)
    (h : clients.generation_model = none ∨ clients.supabase = none) :
    generate_image PROMPTS clients bucketEnv b prompt_id fileBytes =
      (.httpError 503 detail503, []) :=
  aux_uninitialized_503 PROMPTS clients bucketEnv b prompt_id fileBytes h

/-- Witness for C3 at a concrete uninitialized state. -/
theorem generate_image_uninitialized_witness :
    generate_image demoPrompts ⟨none, some ⟨"imagen-3"⟩⟩ (some "pets") demoBackend 1 [5] =
      (.httpError 503 detail503, []) :=
  generate_image_uninitialized demoPrompts ⟨none, some ⟨"imagen-3"⟩⟩ (some "pets")
    demoBackend 1 [5] (Or.inr rfl)

/-- C2: for a `prompt_id` matching no catalog entry, the handler returns
HTTP 404 "Prompt not found" with an empty call trace, whatever the bucket
configuration and backends. -/
theorem generate_image_unknown_prompt (PROMPTS : List PromptEntry)
    (sc : SupabaseC) (gm : GenModelC) (bucketEnv : Option String) (b : Backend)
    (prompt_id : Int) (fileBytes : List Nat)
    (habsent : ∀ p ∈ PROMPTS, p.id ≠ prompt_id) :
    generate_image PROMPTS ⟨some sc, some gm⟩ bucketEnv b prompt_id fileBytes =
      (.httpError 404 "Prompt not found", []) := by
  have hfind : PROMPTS.find? (fun p => p.id == prompt_id) = none := by
    rw [List.find?_eq_none]
    intro p hp
    simpa using habsent p hp
  simp [generate_image, hfind]

/-- Witness for C2: id 3 is absent from the demo catalog. -/
theorem generate_image_unknown_prompt_witness :
    generate_image demoPrompts ⟨some ⟨"https://supa.example", "svc-key"⟩, some ⟨"imagen-3"⟩⟩
        (some "pets") demoBackend 3 [5] =
      (.httpError 404 "Prompt not found", []) :=
  generate_image_unknown_prompt demoPrompts ⟨"https://supa.example", "svc-key"⟩ ⟨"imagen-3"⟩
    (some "pets") demoBackend 3 [5] (by decide)

/-- C6: `get_prompts` has one element per catalog entry, in catalog order, and
the element at each position is exactly the two-field object
`{"id": entry.id, "title": entry.title}` — no `promptText` field. -/
theorem get_prompts_projection (PROMPTS : List PromptEntry) :
    (get_prompts PROMPTS).length = PROMPTS.length ∧
    ∀ (i : Nat) (h : i < PROMPTS.length) (h2 : i < (get_prompts PROMPTS).length),
      (get_prompts PROMPTS).get ⟨i, h2⟩ =
        [("id", JVal.int (PROMPTS.get ⟨i, h⟩).id),
         ("title", JVal.str (PROMPTS.get ⟨i, h⟩).title)] := by
  refine ⟨by simp [get_prompts], ?_⟩
  intro i h h2
  simp [get_prompts]

/-- Witness for C6 on the demo catalog. -/
theorem get_prompts_projection_witness :
    (get_prompts demoPrompts).get ⟨0, by decide⟩ =
      [("id", JVal.int 1), ("title", JVal.str "Astronaut Pet")] :=
  (get_prompts_projection demoPrompts).2 0 (by decide) (by decide)

/-- C1: on an initialized service, with `prompt_id` resolving to a catalog
entry (nonempty prompt text) and both external calls succeeding, the handler
performs exactly one transformation call and exactly one storage call (the
trace is exactly those two events, in order), uploads the transformed bytes
under `synthesized_filename prompt_id suffix` with content type `image/png`,
and returns the storage client's public URL for that very filename. -/
theorem generate_image_success (PROMPTS : List PromptEntry)
    (sc : SupabaseC) (gm : GenModelC) (bucket : String) (b : Backend)
    (prompt_id : Int) (fileBytes : List Nat) (entry : PromptEntry) (newBytes : List Nat)
    (hfind : PROMPTS.find? (fun p => p.id == prompt_id) = some entry)
    (hprompt : entry.promptText ≠ "")
    (hbucket : bucket ≠ "")
    (hedit : b.edit_image fileBytes entry.promptText = .ok newBytes)
    (hupload : b.upload bucket newBytes
        (synthesized_filename prompt_id b.urandom_hex) "image/png" = .ok ()) :
    generate_image PROMPTS ⟨some sc, some gm⟩ (some bucket) b prompt_id fileBytes =
      (.ok (b.get_public_url bucket (synthesized_filename prompt_id b.urandom_hex)),
       [.edit_image fileBytes entry.promptText 1,
        .upload bucket newBytes (synthesized_filename prompt_id b.urandom_hex) "image/png"]) := by
  simp [generate_image, hfind, hprompt, hbucket, hedit, hupload]

/-- Witness for C1 at concrete inputs: the returned URL is the storage
client's URL for the synthesized filename. -/
theorem generate_image_success_witness :
    generate_image demoPrompts ⟨some ⟨"https://supa.example", "svc-key"⟩, some ⟨"imagen-3"⟩⟩
        (some "pets") demoBackend 1 [5, 6] =
      (.ok (demoBackend.get_public_url "pets" (synthesized_filename 1 demoBackend.urandom_hex)),
       [.edit_image [5, 6] "Make the pet an astronaut" 1,
        .upload "pets" [7, 7, 7] (synthesized_filename 1 demoBackend.urandom_hex) "image/png"]) :=
  generate_image_success demoPrompts ⟨"https://supa.example", "svc-key"⟩ ⟨"imagen-3"⟩
    "pets" demoBackend 1 [5, 6] ⟨1, "Astronaut Pet", "Make the pet an astronaut"⟩ [7, 7, 7]
    rfl (by decide) (by decide) rfl rfl

/-- C4: on an initialized service with a valid prompt, when the transformation
call raises, the handler returns HTTP 500 with "Image generation failed: "
followed by the underlying cause, and the trace holds the single transformation
call — no storage call, whatever the bucket configuration. -/
theorem generate_image_edit_failure (PROMPTS : List PromptEntry)
    (sc : SupabaseC) (gm : GenModelC) (bucketEnv : Option String) (b : Backend)
    (prompt_id : Int) (fileBytes : List Nat) (entry : PromptEntry) (e : String)
    (hfind : PROMPTS.find? (fun p => p.id == prompt_id) = some entry)
    (hprompt : entry.promptText ≠ "")
    (hedit : b.edit_image fileBytes entry.promptText = .error e) :
    generate_image PROMPTS ⟨some sc, some gm⟩ bucketEnv b prompt_id fileBytes =
      (.httpError 500 ("Image generation failed: " ++ e),
       [.edit_image fileBytes entry.promptText 1]) := by
  simp [generate_image, hfind, hprompt, hedit]

/-- Witness for C4 with a failing edit call. -/
theorem generate_image_edit_failure_witness :
    generate_image demoPrompts ⟨some ⟨"https://supa.example", "svc-key"⟩, some ⟨"imagen-3"⟩⟩
        (some "pets") demoEditFails 1 [5, 6] =
      (.httpError 500 "Image generation failed: quota exceeded",
       [.edit_image [5, 6] "Make the pet an astronaut" 1]) :=
  generate_image_edit_failure demoPrompts ⟨"https://supa.example", "svc-key"⟩ ⟨"imagen-3"⟩
    (some "pets") demoEditFails 1 [5, 6] ⟨1, "Astronaut Pet", "Make the pet an astronaut"⟩
    "quota exceeded" rfl (by decide) rfl

/-- C5: when the transformation succeeds and the storage upload raises, the
handler returns HTTP 500 with "File upload to Supabase failed: " followed by
the cause; the trace shows exactly one storage attempt (no retry) and the
generated bytes appear in no successful persistence step. -/
theorem generate_image_upload_failure (PROMPTS : List PromptEntry)
    (sc : SupabaseC) (gm : GenModelC) (bucket : String) (b : Backend)
    (prompt_id : Int) (fileBytes : List Nat) (entry : PromptEntry) (newBytes : List Nat)
    (e : String)
    (hfind : PROMPTS.find? (fun p => p.id == prompt_id) = some entry)
    (hprompt : entry.promptText ≠ "")
    (hbucket : bucket ≠ "")
    (hedit : b.edit_image fileBytes entry.promptText = .ok newBytes)
    (hupload : b.upload bucket newBytes
        (synthesized_filename prompt_id b.urandom_hex) "image/png" = .error e) :
    generate_image PROMPTS ⟨some sc, some gm⟩ (some bucket) b prompt_id fileBytes =
      (.httpError 500 ("File upload to Supabase failed: " ++ e),
       [.edit_image fileBytes entry.promptText 1,
        .upload bucket newBytes (synthesized_filename prompt_id b.urandom_hex) "image/png"]) := by
  simp [generate_image, hfind, hprompt, hbucket, hedit, hupload]

/-- Witness for C5 with a failing upload call. -/
theorem generate_image_upload_failure_witness :
    generate_image demoPrompts ⟨some ⟨"https://supa.example", "svc-key"⟩, some ⟨"imagen-3"⟩⟩
        (some "pets") demoUploadFails 1 [5, 6] =
      (.httpError 500 "File upload to Supabase failed: storage quota",
       [.edit_image [5, 6] "Make the pet an astronaut" 1,
        .upload "pets" [7, 7, 7] (synthesized_filename 1 demoUploadFails.urandom_hex)
          "image/png"]) :=
  generate_image_upload_failure demoPrompts ⟨"https://supa.example", "svc-key"⟩ ⟨"imagen-3"⟩
    "pets" demoUploadFails 1 [5, 6] ⟨1, "Astronaut Pet", "Make the pet an astronaut"⟩
    [7, 7, 7] "storage quota" rfl (by decide) (by decide) rfl rfl

/-- C9: when `prompt_id` matches a catalog entry whose `promptText` is the
empty string, the entry is present in the catalog with that id, yet the
handler (initialized) returns HTTP 404 "Prompt not found" with no backend
call: `if not prompt` tests truthiness, not presence. -/
theorem generate_image_empty_prompt_text (PROMPTS : List PromptEntry)
    (sc : SupabaseC) (gm : GenModelC) (bucketEnv : Option String) (b : Backend)
    (prompt_id : Int) (fileBytes : List Nat) (entry : PromptEntry)
    (hfind : PROMPTS.find? (fun p => p.id == prompt_id) = some entry)
    (hempty : entry.promptText = "") :
    entry ∈ PROMPTS ∧ entry.id = prompt_id ∧
    generate_image PROMPTS ⟨some sc, some gm⟩ bucketEnv b prompt_id fileBytes =
      (.httpError 404 "Prompt not found", []) := by
  refine ⟨List.mem_of_find?_eq_some hfind, ?_, ?_⟩
  · have := List.find?_some hfind
    simpa using this
  · simp [generate_image, hfind, hempty]

/-- Witness for C9: demo entry 2 has id in the catalog but empty prompt text. -/
theorem generate_image_empty_prompt_text_witness :
    (⟨2, "Blank", ""⟩ : PromptEntry) ∈ demoPrompts ∧
    (⟨2, "Blank", ""⟩ : PromptEntry).id = 2 ∧
    generate_image demoPrompts
        ⟨some ⟨"https://supa.example", "svc-key"⟩, some ⟨"imagen-3"⟩⟩
        (some "pets") demoBackend 2 [5] =
      (.httpError 404 "Prompt not found", []) :=
  generate_image_empty_prompt_text demoPrompts ⟨"https://supa.example", "svc-key"⟩
    ⟨"imagen-3"⟩ (some "pets") demoBackend 2 [5] ⟨2, "Blank", ""⟩ rfl rfl

/-- Counterexample to C7: with the four other variables set and
`IMAGEN_MODEL_NAME` unset, even constructors that would all succeed are never
called — both clients stay `None` and a subsequent request is rejected 503. -/
theorem imagen_model_optional_cx :
    (startup_event envNoModel demoInit).1 = ⟨none, none⟩ ∧
    (generate_image demoPrompts (startup_event envNoModel demoInit).1 (some "pets")
        demoBackend 1 [5]).1 = .httpError 503 detail503 :=
  ⟨rfl, rfl⟩

/-- C7 amended: `IMAGEN_MODEL_NAME` is required, not optional. Whenever it is
unset (or empty) — in particular with the other four variables set — the
startup check returns early, no constructor runs, both clients stay `None`,
and every subsequent `/generate-image` request is rejected with 503. -/
theorem imagen_model_required (env : StartEnv) (b : InitBackend)
    (_hpid : truthyOpt env.GOOGLE_PROJECT_ID = true)
    (_hloc : truthyOpt env.GOOGLE_LOCATION = true)
    (_hurl : truthyOpt env.SUPABASE_URL = true)
    (_hkey : truthyOpt env.SUPABASE_SERVICE_KEY = true)
    (hmodel : truthyOpt env.IMAGEN_MODEL_NAME = false) :
    startup_event env b = (⟨none, none⟩, none) ∧
    ∀ (PROMPTS : List PromptEntry) (bucketEnv : Option String) (bk : Backend)
      (prompt_id : Int) (fileBytes : List Nat),
      generate_image PROMPTS (startup_event env b).1 bucketEnv bk prompt_id fileBytes =
        (.httpError 503 detail503, []) := by
  have hstart : startup_event env b = (⟨none, none⟩, none) := by
    simp [startup_event, hmodel]
  refine ⟨hstart, ?_⟩
  intro PROMPTS bucketEnv bk prompt_id fileBytes
  rw [hstart]
  exact aux_uninitialized_503 _ _ _ _ _ _ (Or.inl rfl)

/-- Witness for the amended C7 at the concrete no-model environment. -/
theorem imagen_model_required_witness :
    generate_image demoPrompts (startup_event envNoModel demoInit).1 (some "pets")
        demoBackend 2 [5] = (.httpError 503 detail503, []) :=
  (imagen_model_required envNoModel demoInit (by decide) (by decide) (by decide)
    (by decide) (by decide)).2 demoPrompts (some "pets") demoBackend 2 [5]

/-- Counterexample to C8: with `BUCKET` unset on an otherwise fully working
request, the response is HTTP 500 carrying the upload-failure message class
("File upload to Supabase failed: ..."), not 503 and not a distinct
configuration-error class; startup never consults `BUCKET` at all. -/
theorem bucket_missing_cx :
    generate_image demoPrompts demoClients none demoBackend 1 [5, 6] =
      (.httpError 500 ("File upload to Supabase failed: " ++ bucketMissingMsg),
       [.edit_image [5, 6] "Make the pet an astronaut" 1]) ∧
    (generate_image demoPrompts demoClients none demoBackend 1 [5, 6]).1.status ≠ 503 := by
  exact ⟨rfl, by decide⟩

/-- C8 amended: a missing (or empty) `BUCKET` is detected only inside the
upload `try` block: the `ValueError` is caught by the same handler as upload
failures, so the response is HTTP 500 with
"File upload to Supabase failed: SUPABASE BUCKET environment variable (BUCKET)
is not set.", and no upload call is attempted (the trace holds only the
transformation call). -/
theorem bucket_missing_upload_error (PROMPTS : List PromptEntry)
    (sc : SupabaseC) (gm : GenModelC) (bucketEnv : Option String) (b : Backend)
    (prompt_id : Int) (fileBytes : List Nat) (entry : PromptEntry) (newBytes : List Nat)
    (hfind : PROMPTS.find? (fun p => p.id == prompt_id) = some entry)
    (hprompt : entry.promptText ≠ "")
    (hedit : b.edit_image fileBytes entry.promptText = .ok newBytes)
    (hbucket : truthyOpt bucketEnv = false) :
    generate_image PROMPTS ⟨some sc, some gm⟩ bucketEnv b prompt_id fileBytes =
      (.httpError 500 ("File upload to Supabase failed: " ++ bucketMissingMsg),
       [.edit_image fileBytes entry.promptText 1]) := by
  cases bucketEnv with
  | none => simp [generate_image, hfind, hprompt, hedit]
  | some s =>
    have hs : s = "" := by simpa [truthyOpt] using hbucket
    subst hs
    simp [generate_image, hfind, hprompt, hedit]

/-- Witness for the amended C8, with `BUCKET` set to the empty string. -/
theorem bucket_missing_upload_error_witness :
    generate_image demoPrompts ⟨some ⟨"https://supa.example", "svc-key"⟩, some ⟨"imagen-3"⟩⟩
        (some "") demoBackend 1 [5, 6] =
      (.httpError 500 ("File upload to Supabase failed: " ++ bucketMissingMsg),
       [.edit_image [5, 6] "Make the pet an astronaut" 1]) :=
  bucket_missing_upload_error demoPrompts ⟨"https://supa.example", "svc-key"⟩ ⟨"imagen-3"⟩
    (some "") demoBackend 1 [5, 6] ⟨1, "Astronaut Pet", "Make the pet an astronaut"⟩
    [7, 7, 7] rfl (by decide) rfl (by decide)

/-- Helper: in every outcome of the startup `try` block, an initialized
generation model implies an initialized Supabase client (the Supabase global is
assigned first). -/
theorem aux_startup_try_inv (pid loc url key model : String) (b : InitBackend) :
    (startup_try pid loc url key model b).1.generation_model.isSome = true →
    (startup_try pid loc url key model b).1.supabase.isSome = true := by
  unfold startup_try
  cases b.vertexai_init pid loc with
  | error e => simp
  | ok u =>
    cases b.create_client url key with
    | error e => simp
    | ok sc =>
      cases b.from_pretrained model with
      | error e => simp
      | ok gm => simp

/-- Counterexample to C10: with all variables set, a successful
`create_client` and a failing `from_pretrained` leave startup returning
normally with `supabase` assigned and `generation_model` still `None` — the
state is neither "both clients initialized" nor "both left `None`". -/
theorem startup_partial_init_cx :
    (startup_event envAll initModelFails).2 = none ∧
    (startup_event envAll initModelFails).1.supabase =
      some ⟨"https://supa.example", "svc-key"⟩ ∧
    (startup_event envAll initModelFails).1.generation_model = none :=
  ⟨rfl, rfl, rfl⟩

/-- C10 amended: `startup_event` never raises — for every environment and
every constructor outcome it returns normally (escaped exception `none`); the
Supabase global can outlive a later constructor failure, but an initialized
generation model always comes with an initialized Supabase client, and
whenever the generation model is left `None` every subsequent
`/generate-image` request is answered 503 with no backend call. -/
theorem startup_event_never_raises (env : StartEnv) (b : InitBackend) :
    (startup_event env b).2 = none ∧
    ((startup_event env b).1.generation_model.isSome = true →
      (startup_event env b).1.supabase.isSome = true) ∧
    (∀ (PROMPTS : List PromptEntry) (bucketEnv : Option String) (bk : Backend)
       (prompt_id : Int) (fileBytes : List Nat),
      (startup_event env b).1.generation_model = none →
      generate_image PROMPTS (startup_event env b).1 bucketEnv bk prompt_id fileBytes =
        (.httpError 503 detail503, [])) := by
  refine ⟨?_, ?_, ?_⟩
  · simp only [startup_event]
    split
    · rfl
    · split <;> rfl
  · simp only [startup_event]
    split
    · intro h
      simp at h
    · split <;> exact aux_startup_try_inv _ _ _ _ _ b
  · intro PROMPTS bucketEnv bk prompt_id fileBytes hgm
    exact aux_uninitialized_503 _ _ _ _ _ _ (Or.inl hgm)

/-- Witness for the amended C10 at concrete inputs: the implication at a fully
successful startup, and the 503 consequence at the partially failing one. -/
theorem startup_event_never_raises_witness :
    (startup_event envAll demoInit).1.supabase.isSome = true ∧
    generate_image demoPrompts (startup_event envAll initModelFails).1 (some "pets")
        demoBackend 1 [5] = (.httpError 503 detail503, []) :=
  ⟨(startup_event_never_raises envAll demoInit).2.1 rfl,
   (startup_event_never_raises envAll initModelFails).2.2 demoPrompts (some "pets")
     demoBackend 1 [5] rfl⟩

end PetPhoto
